import Mathlib

/-!
Verification development for the pycaendaq acquisition scripts.

The definitions below are a shallow embedding of the two acquisition
programs src/pycaendaq/daq_scope.py (frame mode) and
src/pycaendaq/daq_dpppha.py (per-channel mode): the channel-group
resolution that both share, the pre-loop setup, and the acquisition
loops themselves, modelled as step functions over explicit state driven
by a finite trace of externally supplied device read outcomes and
environment observations (wall clock strings, elapsed seconds, output
file sizes).
-/

namespace PyCaenDaq

/-- Value of a run of ASCII decimal digits, most significant first. -/
def digitsVal (cs : List Char) : Nat :=
  cs.foldl (fun a c => a * 10 + (c.toNat - 48)) 0

/-- Whitespace as stripped by the Python str.strip default (the ASCII
whitespace characters; the exotic unicode spaces Python also strips
are not modelled, no string in this development contains them). -/
def isPyWhitespace (c : Char) : Bool :=
  c = ' ' || c = '\t' || c = '\n' || c = '\r'

/-- Strip leading and trailing whitespace from a character list, as
Python str.strip does. -/
def trimChars (cs : List Char) : List Char :=
  ((cs.dropWhile isPyWhitespace).reverse.dropWhile isPyWhitespace).reverse

/-- Embedding of the Python int(str) conversion as used on channel
selector substrings: surrounding whitespace is stripped, an optional
sign is allowed, and the remainder must be a nonempty run of decimal
digits; anything else raises ValueError, modelled as none.  (The
underscore digit separators Python also tolerates are not modelled;
no selector in this development uses them.) -/
def pyIntChars (cs0 : List Char) : Option Int :=
  match trimChars cs0 with
  | [] => none
  | '-' :: rest =>
      if rest.isEmpty || !rest.all Char.isDigit then none
      else some (-(digitsVal rest : Int))
  | '+' :: rest =>
      if rest.isEmpty || !rest.all Char.isDigit then none
      else some (digitsVal rest : Int)
  | cs =>
      if !cs.all Char.isDigit then none
      else some (digitsVal cs : Int)

/-- The Python int(str) conversion on a string. -/
def pyInt (s : String) : Option Int :=
  pyIntChars s.data

/-- Split a character list on every non-overlapping occurrence of the
two-character separator "..", scanning left to right, keeping empty
pieces, exactly as the Python str.split("..") used on channel
selectors does.  The accumulator holds the current piece reversed. -/
def splitDotsAux : List Char → List Char → List (List Char)
  | [], acc => [acc.reverse]
  | '.' :: '.' :: rest, acc => acc.reverse :: splitDotsAux rest []
  | c :: rest, acc => splitDotsAux rest (c :: acc)

/-- The pieces of the Python split("..") of a character list. -/
def splitDots (cs : List Char) : List (List Char) :=
  splitDotsAux cs []

/-- Split a character list on every comma, keeping empty pieces, as
the Python str.split(",") does. -/
def splitCommaAux : List Char → List Char → List (List Char)
  | [], acc => [acc.reverse]
  | ',' :: rest, acc => acc.reverse :: splitCommaAux rest []
  | c :: rest, acc => splitCommaAux rest (c :: acc)

/-- The pieces of the Python split(",") of a character list. -/
def splitComma (cs : List Char) : List (List Char) :=
  splitCommaAux cs []

/-- Inclusive integer range a..b as a list, empty when b < a. -/
def rangeList (a b : Int) : List Int :=
  (List.range (b + 1 - a).toNat).map (fun k => a + (k : Int))

/-- Embedding of the per-group channel selector parsing in main
(daq_scope.py lines 63-85, identical in daq_dpppha.py): if the string
contains ".." (equivalently, splitting on ".." gives more than one
piece) it must split into exactly two integer limits with start not
greater than end, yielding the inclusive range; otherwise the whole
string must parse as a single integer.  A parse failure returns none,
which main treats as a warning that skips the group. -/
def parseSelector (s : String) : Option (List Int) :=
  match splitDots s.data with
  | [_single] => (pyInt s).map (fun n => [n])
  | [a, b] =>
      match pyIntChars a, pyIntChars b with
      | some sa, some sb => if sa > sb then none else some (rangeList sa sb)
      | _, _ => none
  | _ => none

/-- One named channel group from the channel_settings mapping: the
channels selector string (none models a missing channels key) and the
chenable flag. -/
structure ChannelGroup where
  channels : Option String
  chenable : Bool
deriving DecidableEq

/-- Channels a group contributes to all_active_channels in main: a
group with a missing channels key, a disabled group, or a group whose
selector fails to parse contributes nothing. -/
def groupChannels (g : ChannelGroup) : List Int :=
  match g.channels with
  | none => []
  | some s => if g.chenable then (parseSelector s).getD [] else []

/-- Insert an element into a strictly increasing list, keeping it
strictly increasing: the element is dropped if already present. -/
def insertSorted (x : Int) : List Int → List Int
  | [] => [x]
  | y :: ys =>
      if x < y then x :: y :: ys
      else if x = y then y :: ys
      else y :: insertSorted x ys

/-- Sorted duplicate-free list of the elements, embedding the Python
idiom sorted(list(set(xs))): the strictly increasing enumeration of
the distinct elements (established by the resolver lemmas below). -/
def sortedDedup (l : List Int) : List Int :=
  l.foldr insertSorted []

/-- Embedding of the channel resolution in main (daq_scope.py lines
52-89): every group contributes its parsed channels to a set, and the
active channel list is the sorted deduplicated result. -/
def resolveChannels (groups : List ChannelGroup) : List Int :=
  sortedDedup (groups.flatMap groupChannels)

/-- Modelled from the spec: section 3 names three channel-selector
string forms — a single integer, an inclusive range "start..end", and
an explicit list.  The source under src implements only the first two;
this definition follows the words of the spec, reading the explicit
list as a bracketed comma-separated sequence of integers, and
otherwise agrees with the source parsing. -/
def specSelectorChannels (s : String) : Option (List Int) :=
  let t := trimChars s.data
  if t.head? = some '[' && t.getLast? = some ']' then
    let parts := splitComma ((t.drop 1).dropLast)
    let vals := parts.map pyIntChars
    if vals.all Option.isSome then some (vals.map (fun v => v.getD 0)) else none
  else parseSelector s

/-- General settings read from the general_settings mapping.
bufferSize, maxFileSizeMb and intervalStats are read with .get and a
default, so none simply selects the default.  recordlengths and
acqtriggersource, by contrast, are mandatory subscripts
(daq_scope.py lines 117-118): none models the key being absent from
the YAML file, which raises an uncaught KeyError before
device.connect.  The recordlengths value is carried as the string form
of the YAML scalar, because main passes it through int(): a
non-integer string raises an uncaught ValueError.  (A YAML float
scalar, which int() would truncate rather than reject, is not
modelled; no configuration in this development uses one.) -/
structure GenSettings where
  bufferSize : Option Nat
  maxFileSizeMb : Option Nat
  recordlengths : Option String
  acqtriggersource : Option String
  intervalStats : Option Nat
deriving DecidableEq

/-- Command-line arguments of main that matter to setup. -/
structure CliArgs where
  outFile : Option String
  nEvents : Option Nat
  duration : Option Nat
deriving DecidableEq

/-- Outcome of loading the YAML configuration file, which happens
before any of the settings are inspected. -/
inductive ConfigLoad where
  | missing
  | parseError
  | loaded (gen : GenSettings) (groups : List ChannelGroup)

/-- Fatal ends main can take before touching the device.  The first
two are the explicit sys.exit(1) paths for the configuration file
(daq_scope.py lines 37-48); the last two are uncaught exceptions from
the mandatory general-settings lookups at daq_scope.py lines 117-118:
a KeyError when the named key is absent, and a ValueError when
int(gen_settings["recordlengths"]) fails to parse. -/
inductive StartError where
  | configFileNotFound
  | yamlError
  | uncaughtKeyError (key : String)
  | uncaughtValueError
deriving DecidableEq

/-- Remove every non-overlapping occurrence of ".lh5", scanning left
to right, as the Python out_file.replace(".lh5", "") that derives the
base name does. -/
def stripLh5Aux : List Char → List Char
  | '.' :: 'l' :: 'h' :: '5' :: rest => stripLh5Aux rest
  | c :: rest => c :: stripLh5Aux rest
  | [] => []

/-- The base output name derived from the out_file argument. -/
def stripLh5 (s : String) : String :=
  String.mk (stripLh5Aux s.data)

/-- Buffer-size clamping in main (daq_scope.py lines 105-106,
daq_dpppha.py lines 104-105): if a finite event target is given and is
smaller than the configured buffer size, the buffer size becomes the
target. -/
def clampBufferSize (bufferSize : Nat) (totalEvents : Option Nat) : Nat :=
  match totalEvents with
  | some n => if n < bufferSize then n else bufferSize
  | none => bufferSize

/-- Run parameters main has derived by the time the device loop is
entered. -/
structure RunSetup where
  channelList : List Int
  activeChCount : Nat
  bufferSize : Nat
  maxFileBytes : Nat
  saveEnabled : Bool
  baseName : String
  recordlengths : Int
  acqtriggersource : String
deriving DecidableEq

/-- Embedding of the pre-device phase of main in daq_scope.py (lines
27-122): after the configuration file loads, the channels are
resolved, the optional settings take their defaults, the buffer size
is clamped, and then the two mandatory general-settings lookups run:
recordlengths = int(gen_settings["recordlengths"]) and
acqtriggersource = gen_settings["acqtriggersource"] (lines 117-118).
A missing key raises an uncaught KeyError and a non-integer
recordlengths an uncaught ValueError, both fatal before
device.connect; they are the only failure points after the file loads.
No branch anywhere inspects whether the resolved channel list is
empty. -/
def scopeStart (load : ConfigLoad) (args : CliArgs) : Except StartError RunSetup :=
  match load with
  | .missing => .error .configFileNotFound
  | .parseError => .error .yamlError
  | .loaded gen groups =>
      let channelList := resolveChannels groups
      match gen.recordlengths with
      | none => .error (.uncaughtKeyError "recordlengths")
      | some rlRaw =>
          match pyInt rlRaw with
          | none => .error .uncaughtValueError
          | some rl =>
              match gen.acqtriggersource with
              | none => .error (.uncaughtKeyError "acqtriggersource")
              | some src =>
                  .ok
                    { channelList := channelList
                      activeChCount := channelList.length
                      bufferSize := clampBufferSize (gen.bufferSize.getD 100) args.nEvents
                      maxFileBytes := (gen.maxFileSizeMb.getD 100) * 1024 * 1024
                      saveEnabled := args.outFile.isSome
                      baseName := stripLh5 (args.outFile.getD "")
                      recordlengths := rl
                      acqtriggersource := src }

/-- Embedding of get_new_filename (daq_scope.py lines 266-267 and
daq_dpppha.py lines 286-287): the output name is the base name plus an
underscore, the timestamp string, and the .lh5 extension; the result
depends on nothing else, so no uniqueness of any kind is enforced. -/
def get_new_filename (base ts : String) : String :=
  base ++ "_" ++ ts ++ ".lh5"

/-- One frame event as delivered by the scope endpoint: timestamp,
32-bit trigger id, and the shape of the delivered waveform matrix (the
sample values themselves are irrelevant to every claim, so only the
shape is carried). -/
structure FrameEvent where
  timestamp : Nat
  triggerId : Nat
  rows : Nat
  cols : Nat
deriving DecidableEq

/-- Outcome of one endpoint.read_data call, per the except clauses in
both loops: a delivered event, a TIMEOUT error, a STOP error, or any
other error (re-raised). -/
inductive ReadOutcome (ev : Type) where
  | ok (e : ev)
  | timeout
  | stop
  | fatal
deriving DecidableEq

/-- Externally supplied observations for one iteration of the scope
loop: the read outcome, whether the current output file exists and its
size in bytes after the flush writes (consulted only by the rotation
check), the wall-clock timestamp string a rotation would use, and the
elapsed whole seconds since start (consulted by the duration check). -/
structure ScopeInput where
  read : ReadOutcome FrameEvent
  fileExists : Bool
  fileSize : Nat
  now : String
  elapsed : Nat
deriving DecidableEq

/-- Fixed parameters of a scope acquisition run. -/
structure ScopeCfg where
  channelList : List Int
  recordlengths : Nat
  bufferSize : Nat
  maxFileBytes : Nat
  totalEvents : Option Nat
  maxDuration : Option Nat
  saveEnabled : Bool
  baseName : String
  initTs : String
  startTs : Nat
deriving DecidableEq

/-- Per-event data stored in one buffer slot (shared across the active
channels, which are written in lockstep in frame mode).  The event
number is stored through a numpy uint16 buffer, hence modulo 2 to the
16; the timestamp through a uint64 buffer, hence modulo 2 to the 64;
wfCols is the sample count of the stored waveform row. -/
structure Slot where
  trigId : Nat
  evnum : Nat
  tsStored : Nat
  wfCols : Nat
deriving DecidableEq

/-- Which branch of the loop performed a flush: the buffer-full branch
or the stopping (draining) branch. -/
inductive FlushCause where
  | full
  | draining
deriving DecidableEq

/-- Record of one flush performed by the loop: the branch that did it,
the slots written (one structured append per active channel), the file
written to, the existence and size observations the rotation check
consumed, and whether rotation was triggered. -/
structure FlushRec where
  cause : FlushCause
  written : List Slot
  file : String
  existsSeen : Bool
  sizeSeen : Nat
  rotated : Bool
deriving DecidableEq

/-- Why the acquisition loop terminated. -/
inductive EndReason where
  | targetReached
  | durationReached
  | deviceStop
  | fatalError
deriving DecidableEq

/-- State of the scope acquisition loop.  slots models the contents of
the per-channel numpy buffers up to buffer_counter (identical fill for
every active channel in frame mode, so one shared list); lastTrig is
the trigger_id of the most recently accepted event; accepted counts
accepted events; files lists every output file opened, in order. -/
structure ScopeState where
  slots : List Slot
  lastTrig : Nat
  accepted : Nat
  currentFile : String
  files : List String
  flushes : List FlushRec
  totalWritten : Nat
  ended : Option EndReason
deriving DecidableEq

/-- Truthiness-guarded threshold check shared by the stopping
conditions: Python "if limit and value >= limit" is false when the
limit is None or zero. -/
def limitReached (limit : Option Nat) (value : Nat) : Bool :=
  match limit with
  | none => false
  | some n => decide (0 < n) && decide (n ≤ value)

/-- The save-and-rotate block of the scope loop (daq_scope.py lines
210-250), entered when the buffer is full and saving is enabled: one
append per active channel to the current file, then the rotation
check: if the current file exists and its size meets the threshold, a
new file named from the current wall clock becomes current. -/
def scopeSaveBlock (cfg : ScopeCfg) (s : ScopeState) (inp : ScopeInput) : ScopeState :=
  let rotate := inp.fileExists && decide (cfg.maxFileBytes ≤ inp.fileSize)
  let rec1 : FlushRec :=
    { cause := .full, written := s.slots, file := s.currentFile
      existsSeen := inp.fileExists, sizeSeen := inp.fileSize, rotated := rotate }
  let s1 := { s with
    flushes := s.flushes ++ [rec1]
    totalWritten := s.totalWritten + s.slots.length }
  if rotate then
    let nf := get_new_filename cfg.baseName inp.now
    { s1 with currentFile := nf, files := s1.files ++ [nf] }
  else s1

/-- The stopping checks at the bottom of the scope loop (daq_scope.py
lines 254-261), reached only for an accepted event: the target check
compares the full trigger id of this event against total_events, then
the duration check compares the elapsed time against max_duration;
each breaks out of the loop without any further flush. -/
def scopeStopChecks (cfg : ScopeCfg) (trig elapsed : Nat) (s : ScopeState) : ScopeState :=
  if limitReached cfg.totalEvents trig then
    { s with ended := some .targetReached }
  else if limitReached cfg.maxDuration elapsed then
    { s with ended := some .durationReached }
  else s

/-- One iteration of the scope acquisition loop (daq_scope.py lines
173-261).  A timeout is retried leaving everything unchanged; a stop
ends the loop; any other read error propagates as fatal.  A delivered
event whose waveform has fewer rows than there are active channels or
a sample count different from recordlengths is discarded with a
warning and the iteration restarts (the stopping checks are skipped).
An accepted event is written into slot buffer_counter of every active
channel buffer; when the fill reaches buffer_size the save block runs
(only if saving is enabled) and the fill resets unconditionally;
finally the stopping conditions are checked against the full trigger
id and the elapsed time. -/
def scopeStep (cfg : ScopeCfg) (s : ScopeState) (inp : ScopeInput) : ScopeState :=
  match inp.read with
  | .timeout => s
  | .stop => { s with ended := some .deviceStop }
  | .fatal => { s with ended := some .fatalError }
  | .ok ev =>
      if ev.rows < cfg.channelList.length ∨ ev.cols ≠ cfg.recordlengths then s
      else
        let slot : Slot :=
          { trigId := ev.triggerId
            evnum := ev.triggerId % 65536
            tsStored := (cfg.startTs + ev.timestamp) % 2 ^ 64
            wfCols := ev.cols }
        let s1 := { s with
          slots := s.slots ++ [slot]
          lastTrig := ev.triggerId
          accepted := s.accepted + 1 }
        let s2 :=
          if cfg.bufferSize ≤ s1.slots.length then
            let s1f := if cfg.saveEnabled then scopeSaveBlock cfg s1 inp else s1
            { s1f with slots := [] }
          else s1
        scopeStopChecks cfg ev.triggerId inp.elapsed s2

/-- State at the top of the scope loop: fresh buffers, and when saving
is enabled an output file named from the start-of-run timestamp. -/
def scopeInit (cfg : ScopeCfg) : ScopeState :=
  let f := get_new_filename cfg.baseName cfg.initTs
  { slots := [], lastTrig := 0, accepted := 0
    currentFile := f
    files := if cfg.saveEnabled then [f] else []
    flushes := [], totalWritten := 0, ended := none }

/-- Run the scope loop from a given state over a finite trace of
inputs; once the loop has ended the remaining inputs are ignored. -/
def scopeRunFrom (cfg : ScopeCfg) (s : ScopeState) (inputs : List ScopeInput) : ScopeState :=
  inputs.foldl (fun t inp => if t.ended.isSome then t else scopeStep cfg t inp) s

/-- Run the scope loop from its initial state. -/
def scopeRun (cfg : ScopeCfg) (inputs : List ScopeInput) : ScopeState :=
  scopeRunFrom cfg (scopeInit cfg) inputs

/-- One event as delivered by the dpppha endpoint: the channel it is
tagged with, its timestamp, and the length of the delivered
ANALOG_PROBE_1 payload (all probe arrays are sliced identically, and
the sample values are irrelevant to every claim, so one length
suffices). -/
structure DppEvent where
  channel : Int
  timestampNs : Nat
  probeLen : Nat
deriving DecidableEq

/-- Externally supplied observations for one iteration of the dpppha
loop.  chRecordLengths and adcInput16 are the answers the device gives
to the two get_value calls the loop makes for the channel of this
event (daq_dpppha.py lines 230-232); the remaining fields are as in
the scope loop. -/
structure DppInput where
  read : ReadOutcome DppEvent
  chRecordLengths : Nat
  adcInput16 : Bool
  fileExists : Bool
  fileSize : Nat
  now : String
  elapsed : Nat
deriving DecidableEq

/-- Fixed parameters of a dpppha acquisition run.  There is no
configured record length here: the loop queries the device for it on
every event. -/
structure DppCfg where
  channelList : List Int
  bufferSize : Nat
  maxFileBytes : Nat
  totalEvents : Option Nat
  maxDuration : Option Nat
  saveEnabled : Bool
  baseName : String
  initTs : String
deriving DecidableEq

/-- One channel accumulator of the dpppha loop: the lengths of the
waveform entries currently buffered (each probe list is appended and
cleared in step with the waveform list, so one list of lengths models
them all) and the count field, which is incremented per event and
never reset, not even by a flush. -/
structure ChBuf where
  wfLens : List Nat
  count : Nat
deriving DecidableEq

/-- Record of one flush performed by flush_buffers_to_lh5: the branch
that invoked it, the per-channel number of events written (channels
with an empty buffer are skipped), the file, the rotation-check
observations, and whether rotation followed (rotation runs only after
the buffer-full flush; the stopping-branch flushes are followed by
break with no rotation check). -/
structure DppFlushRec where
  cause : FlushCause
  perCh : List (Int × Nat)
  file : String
  existsSeen : Bool
  sizeSeen : Nat
  rotated : Bool
deriving DecidableEq

/-- State of the dpppha acquisition loop.  bufCounter is the shared
buffer_counter; triggerId is the loop-local event counter, incremented
once per accepted event; bufs holds one accumulator per active
channel, in channel_list order. -/
structure DppState where
  bufCounter : Nat
  bufs : List (Int × ChBuf)
  triggerId : Nat
  currentFile : String
  files : List String
  flushes : List DppFlushRec
  totalWritten : Nat
  ended : Option EndReason
deriving DecidableEq

/-- Append one stored waveform length to the accumulator of the given
channel, incrementing its count. -/
def bufAppend (bufs : List (Int × ChBuf)) (ch : Int) (len : Nat) : List (Int × ChBuf) :=
  bufs.map (fun p =>
    if p.1 = ch then (p.1, { wfLens := p.2.wfLens ++ [len], count := p.2.count + 1 })
    else p)

/-- Embedding of flush_buffers_to_lh5 (daq_dpppha.py lines 357-435):
every channel with a nonempty buffer gets one structured append to the
current file and its lists are cleared; the count field is kept.  The
record notes which loop branch invoked the flush. -/
def dppFlush (cause : FlushCause) (s : DppState) (inp : DppInput)
    (rotated : Bool) : DppState :=
  let rec1 : DppFlushRec :=
    { cause := cause
      perCh := (s.bufs.filter (fun p => !p.2.wfLens.isEmpty)).map
        (fun p => (p.1, p.2.wfLens.length))
      file := s.currentFile
      existsSeen := inp.fileExists, sizeSeen := inp.fileSize, rotated := rotated }
  { s with
    bufs := s.bufs.map (fun p => (p.1, { wfLens := [], count := p.2.count }))
    flushes := s.flushes ++ [rec1]
    totalWritten := s.totalWritten + (s.bufs.map (fun p => p.2.wfLens.length)).sum }

/-- The stopping checks at the bottom of the dpppha loop
(daq_dpppha.py lines 265-280), reached only for an accepted event: the
target check compares the incremented loop counter trigger_id against
total_events, then the duration check compares the elapsed time
against max_duration; each performs a final flush of the buffers (when
saving is enabled) before breaking out of the loop. -/
def dppStopChecks (cfg : DppCfg) (inp : DppInput) (s : DppState) : DppState :=
  if limitReached cfg.totalEvents s.triggerId then
    let s4 := if cfg.saveEnabled then dppFlush .draining s inp false else s
    { s4 with ended := some .targetReached }
  else if limitReached cfg.maxDuration inp.elapsed then
    let s4 := if cfg.saveEnabled then dppFlush .draining s inp false else s
    { s4 with ended := some .durationReached }
  else s

/-- One iteration of the dpppha acquisition loop (daq_dpppha.py lines
215-280).  A timeout is retried unchanged; a STOP error breaks out of
the loop with no final flush; any other read error propagates as
fatal.  A delivered event for a channel outside channel_list raises
KeyError on the buffers dictionary, modelled as a fatal end.
Otherwise the record length for the event channel is re-queried from
the device (and doubled when waveanalogprobe0 is ADCInput16), the
probe payloads are truncated to it and appended, and the shared
buffer_counter is incremented.  Only when buffer_counter strictly
exceeds buffer_size does the full-buffer flush run (followed by the
rotation check), after which buffer_counter resets; then trigger_id is
incremented and the stopping conditions are checked, each performing
its own final flush before break when saving is enabled. -/
def dppStep (cfg : DppCfg) (s : DppState) (inp : DppInput) : DppState :=
  match inp.read with
  | .timeout => s
  | .stop => { s with ended := some .deviceStop }
  | .fatal => { s with ended := some .fatalError }
  | .ok ev =>
      if ev.channel ∈ cfg.channelList then
        let reclen := if inp.adcInput16 then 2 * inp.chRecordLengths else inp.chRecordLengths
        let s1 := { s with
          bufs := bufAppend s.bufs ev.channel (min ev.probeLen reclen)
          bufCounter := s.bufCounter + 1 }
        let s2 :=
          if cfg.bufferSize < s1.bufCounter then
            let s1f :=
              if cfg.saveEnabled then
                let fl := dppFlush .full s1 inp
                  (inp.fileExists && decide (cfg.maxFileBytes ≤ inp.fileSize))
                if inp.fileExists && decide (cfg.maxFileBytes ≤ inp.fileSize) then
                  let nf := get_new_filename cfg.baseName inp.now
                  { fl with currentFile := nf, files := fl.files ++ [nf] }
                else fl
              else s1
            { s1f with bufCounter := 0 }
          else s1
        let s3 := { s2 with triggerId := s2.triggerId + 1 }
        dppStopChecks cfg inp s3
      else { s with ended := some .fatalError }

/-- State at the top of the dpppha loop: one empty accumulator per
active channel, and when saving is enabled an output file named from
the start-of-run timestamp. -/
def dppInit (cfg : DppCfg) : DppState :=
  let f := get_new_filename cfg.baseName cfg.initTs
  { bufCounter := 0
    bufs := cfg.channelList.map (fun ch => (ch, { wfLens := [], count := 0 }))
    triggerId := 0
    currentFile := f
    files := if cfg.saveEnabled then [f] else []
    flushes := [], totalWritten := 0, ended := none }

/-- Run the dpppha loop from a given state over a finite trace of
inputs; once the loop has ended the remaining inputs are ignored. -/
def dppRunFrom (cfg : DppCfg) (s : DppState) (inputs : List DppInput) : DppState :=
  inputs.foldl (fun t inp => if t.ended.isSome then t else dppStep cfg t inp) s

/-- Run the dpppha loop from its initial state. -/
def dppRun (cfg : DppCfg) (inputs : List DppInput) : DppState :=
  dppRunFrom cfg (dppInit cfg) inputs

/-- A scope-loop input delivering one valid single-channel event with
the given trigger id, against a record length of 4 samples; the
environment reports an existing output file of the given size, the
wall-clock string nw, and zero elapsed seconds. -/
def scopeOkInput (trig : Nat) (size : Nat) (nw : String) : ScopeInput :=
  { read := .ok { timestamp := 0, triggerId := trig, rows := 1, cols := 4 }
    fileExists := true, fileSize := size, now := nw, elapsed := 0 }

/-- A scope-loop input reporting a read timeout. -/
def scopeTimeoutInput : ScopeInput :=
  { read := .timeout, fileExists := true, fileSize := 0, now := "T", elapsed := 0 }

/-- A dpppha-loop input delivering one event on channel 0 with the
given payload length, while the device reports the given channel
record length (waveanalogprobe0 not set to ADCInput16). -/
def dppOkInput (probeLen reclen : Nat) : DppInput :=
  { read := .ok { channel := 0, timestampNs := 0, probeLen := probeLen }
    chRecordLengths := reclen, adcInput16 := false
    fileExists := true, fileSize := 0, now := "T", elapsed := 0 }

/-- A dpppha-loop input reporting a read timeout. -/
def dppTimeoutInput : DppInput :=
  { read := .timeout, chRecordLengths := 4, adcInput16 := false
    fileExists := true, fileSize := 0, now := "T", elapsed := 0 }

/-- Run configuration for the C1 counterexample: one active channel,
buffer capacity 1, saving disabled. -/
def c1DppCfg : DppCfg :=
  { channelList := [0], bufferSize := 1, maxFileBytes := 1048576
    totalEvents := none, maxDuration := none, saveEnabled := false
    baseName := "run", initTs := "T0" }

/-- Run configuration for the C2 counterexample: frame mode, buffer
capacity 5, target of 2 events, saving enabled. -/
def c2ScopeCfg : ScopeCfg :=
  { channelList := [0], recordlengths := 4, bufferSize := 5
    maxFileBytes := 1048576, totalEvents := some 2, maxDuration := none
    saveEnabled := true, baseName := "run", initTs := "T0", startTs := 0 }

/-- Run configuration for the C2 witness: per-channel mode, target of
1 event, saving enabled. -/
def c2DppCfg : DppCfg :=
  { channelList := [0], bufferSize := 5, maxFileBytes := 1048576
    totalEvents := some 1, maxDuration := none, saveEnabled := true
    baseName := "run", initTs := "T0" }

/-- Run configuration for the C3 counterexample: buffer capacity 2,
rotation threshold of 1 byte so every flush rotates, target of 5
events, saving enabled. -/
def c3ScopeCfg : ScopeCfg :=
  { channelList := [0], recordlengths := 4, bufferSize := 2
    maxFileBytes := 1, totalEvents := some 5, maxDuration := none
    saveEnabled := true, baseName := "run", initTs := "A", startTs := 0 }

/-- The C3 counterexample trace: five valid events; after each flush
the file reports size 5 and the wall clock reports the same timestamp
string B both times rotation runs. -/
def c3Inputs : List ScopeInput :=
  (List.range 5).map (fun k => scopeOkInput (k + 1) 5 "B")

/-- Run configuration for scenario B (claim C5) in frame mode: the
configured buffer size 100 clamped against the target of 50 events,
rotation threshold high enough never to rotate, saving enabled. -/
def c5ScopeCfg : ScopeCfg :=
  { channelList := [0], recordlengths := 4
    bufferSize := clampBufferSize 100 (some 50)
    maxFileBytes := 1048576, totalEvents := some 50, maxDuration := none
    saveEnabled := true, baseName := "run", initTs := "T0", startTs := 0 }

/-- Scenario B trace: 50 valid events with trigger ids 1 to 50. -/
def c5Inputs : List ScopeInput :=
  (List.range 50).map (fun k => scopeOkInput (k + 1) 0 "T")

/-- Run configuration for scenario B (claim C5) in per-channel mode. -/
def c5DppCfg : DppCfg :=
  { channelList := [0], bufferSize := clampBufferSize 100 (some 50)
    maxFileBytes := 1048576, totalEvents := some 50, maxDuration := none
    saveEnabled := true, baseName := "run", initTs := "T0" }

/-- Scenario B trace in per-channel mode: 50 events on channel 0. -/
def c5DppInputs : List DppInput :=
  (List.range 50).map (fun _ => dppOkInput 8 8)

/-- Run configuration for the C6 scenario runs: no stopping limits. -/
def c6ScopeCfg : ScopeCfg :=
  { channelList := [0], recordlengths := 4, bufferSize := 100
    maxFileBytes := 1048576, totalEvents := none, maxDuration := none
    saveEnabled := false, baseName := "run", initTs := "T0", startTs := 0 }

/-- Per-channel-mode run configuration for the C6 scenario runs. -/
def c6DppCfg : DppCfg :=
  { channelList := [0], bufferSize := 100, maxFileBytes := 1048576
    totalEvents := none, maxDuration := none, saveEnabled := false
    baseName := "run", initTs := "T0" }

/-- General settings of the C7 counterexample configuration. -/
def c7Gen : GenSettings :=
  { bufferSize := some 10, maxFileSizeMb := some 1
    recordlengths := some "4", acqtriggersource := some "SwTrg"
    intervalStats := none }

/-- Channel groups of the C7 counterexample configuration: a single
group with a valid selector that is disabled, so no group contributes
any channel. -/
def c7Groups : List ChannelGroup :=
  [{ channels := some "0..3", chenable := false }]

/-- Command-line arguments of the C7 counterexample run: an output
file is given, so saving is enabled. -/
def c7Args : CliArgs :=
  { outFile := some "run.lh5", nEvents := none, duration := none }

/-- The loop configuration main builds from the C7 counterexample
setup: an empty active channel list. -/
def c7ScopeCfg : ScopeCfg :=
  { channelList := [], recordlengths := 4, bufferSize := 10
    maxFileBytes := 1048576, totalEvents := none, maxDuration := none
    saveEnabled := true, baseName := "run", initTs := "T0", startTs := 0 }

/-- An event with a waveform of zero rows, which the loop accepts when
the active channel list is empty. -/
def c7Input : ScopeInput :=
  { read := .ok { timestamp := 0, triggerId := 1, rows := 0, cols := 4 }
    fileExists := true, fileSize := 0, now := "T", elapsed := 0 }

/-- The run setup scopeStart produces from the C7 counterexample
configuration: setup succeeds with an empty channel list. -/
def c7Setup : RunSetup :=
  { channelList := [], activeChCount := 0, bufferSize := 10
    maxFileBytes := 1048576, saveEnabled := true, baseName := "run"
    recordlengths := 4, acqtriggersource := "SwTrg" }

/-- Run configuration for the C8 counterexample: per-channel mode,
large buffer, saving disabled. -/
def c8DppCfg : DppCfg :=
  { channelList := [0], bufferSize := 10, maxFileBytes := 1048576
    totalEvents := none, maxDuration := none, saveEnabled := false
    baseName := "run", initTs := "T0" }

/-- Run configuration for the C10 run: frame mode with a target of
65600 events, large buffer. -/
def c10ScopeCfg : ScopeCfg :=
  { channelList := [0], recordlengths := 4, bufferSize := 100
    maxFileBytes := 1048576, totalEvents := some 65600, maxDuration := none
    saveEnabled := false, baseName := "run", initTs := "T0", startTs := 0 }

theorem mem_insertSorted (x a : Int) (l : List Int) :
    a ∈ insertSorted x l ↔ a = x ∨ a ∈ l := by
  induction l with
  | nil => simp [insertSorted]
  | cons y ys ih =>
      simp only [insertSorted]
      split
      · simp only [List.mem_cons]
      · split
        · rename_i h1 h2
          subst h2
          simp only [List.mem_cons]
          tauto
        · simp only [List.mem_cons, ih]
          tauto

theorem sorted_insertSorted (x : Int) (l : List Int)
    (hl : l.Sorted (fun a b => a < b)) :
    (insertSorted x l).Sorted (fun a b => a < b) := by
  induction l with
  | nil => simp [insertSorted]
  | cons y ys ih =>
      rw [List.sorted_cons] at hl
      by_cases h1 : x < y
      · rw [insertSorted, if_pos h1, List.sorted_cons]
        refine ⟨?_, by rw [List.sorted_cons]; exact hl⟩
        intro b hb
        rcases List.mem_cons.mp hb with hb | hb
        · exact hb ▸ h1
        · exact lt_trans h1 (hl.1 b hb)
      · by_cases h2 : x = y
        · rw [insertSorted, if_neg h1, if_pos h2, List.sorted_cons]
          exact hl
        · have hyx : y < x := by
            rcases lt_trichotomy x y with h | h | h
            · exact absurd h h1
            · exact absurd h h2
            · exact h
          rw [insertSorted, if_neg h1, if_neg h2, List.sorted_cons]
          refine ⟨?_, ih hl.2⟩
          intro b hb
          rcases (mem_insertSorted x b ys).mp hb with hb | hb
          · exact hb ▸ hyx
          · exact hl.1 b hb

theorem sorted_sortedDedup (l : List Int) :
    (sortedDedup l).Sorted (fun a b => a < b) := by
  induction l with
  | nil => simp [sortedDedup]
  | cons x xs ih => exact sorted_insertSorted x (sortedDedup xs) ih

theorem mem_sortedDedup (a : Int) (l : List Int) :
    a ∈ sortedDedup l ↔ a ∈ l := by
  induction l with
  | nil => simp [sortedDedup]
  | cons x xs ih =>
      show a ∈ insertSorted x (sortedDedup xs) ↔ _
      rw [mem_insertSorted, ih, List.mem_cons]

theorem resolveChannels_sorted (groups : List ChannelGroup) :
    (resolveChannels groups).Sorted (fun a b => a ≤ b) := by
  exact (sorted_sortedDedup (groups.flatMap groupChannels)).le_of_lt

theorem resolveChannels_nodup (groups : List ChannelGroup) :
    (resolveChannels groups).Nodup := by
  exact (sorted_sortedDedup (groups.flatMap groupChannels)).nodup

theorem mem_resolveChannels (groups : List ChannelGroup) (x : Int) :
    x ∈ resolveChannels groups ↔ ∃ g ∈ groups, x ∈ groupChannels g := by
  rw [resolveChannels, mem_sortedDedup, List.mem_flatMap]

theorem foldl_preserve {σ α : Type} (f : σ → α → σ) (P : σ → Prop)
    (h : ∀ s a, P s → P (f s a)) (l : List α) (s : σ) (hs : P s) :
    P (l.foldl f s) := by
  induction l generalizing s with
  | nil => exact hs
  | cons a t ih => exact ih (f s a) (h s a hs)

theorem scopeRunFrom_preserve (cfg : ScopeCfg) (P : ScopeState → Prop)
    (h : ∀ s inp, s.ended = none → P s → P (scopeStep cfg s inp))
    (inputs : List ScopeInput) (s : ScopeState) (hs : P s) :
    P (scopeRunFrom cfg s inputs) := by
  refine foldl_preserve _ P ?_ inputs s hs
  intro t inp ht
  cases he : t.ended with
  | none => simpa [he] using h t inp he ht
  | some r => simpa [he] using ht

theorem dppRunFrom_preserve (cfg : DppCfg) (P : DppState → Prop)
    (h : ∀ s inp, s.ended = none → P s → P (dppStep cfg s inp))
    (inputs : List DppInput) (s : DppState) (hs : P s) :
    P (dppRunFrom cfg s inputs) := by
  refine foldl_preserve _ P ?_ inputs s hs
  intro t inp ht
  cases he : t.ended with
  | none => simpa [he] using h t inp he ht
  | some r => simpa [he] using ht

theorem scopeStopChecks_cases (cfg : ScopeCfg) (trig elapsed : Nat) (s : ScopeState) :
    scopeStopChecks cfg trig elapsed s = s ∨
    scopeStopChecks cfg trig elapsed s = { s with ended := some .targetReached } ∨
    scopeStopChecks cfg trig elapsed s = { s with ended := some .durationReached } := by
  unfold scopeStopChecks
  split
  · right; left; rfl
  · split
    · right; right; rfl
    · left; rfl

theorem scopeStopChecks_slots (cfg : ScopeCfg) (trig elapsed : Nat) (s : ScopeState) :
    (scopeStopChecks cfg trig elapsed s).slots = s.slots := by
  rcases scopeStopChecks_cases cfg trig elapsed s with h | h | h <;> rw [h]

theorem scopeStopChecks_flushes (cfg : ScopeCfg) (trig elapsed : Nat) (s : ScopeState) :
    (scopeStopChecks cfg trig elapsed s).flushes = s.flushes := by
  rcases scopeStopChecks_cases cfg trig elapsed s with h | h | h <;> rw [h]

theorem scopeStopChecks_files (cfg : ScopeCfg) (trig elapsed : Nat) (s : ScopeState) :
    (scopeStopChecks cfg trig elapsed s).files = s.files := by
  rcases scopeStopChecks_cases cfg trig elapsed s with h | h | h <;> rw [h]

theorem scopeStopChecks_totalWritten (cfg : ScopeCfg) (trig elapsed : Nat) (s : ScopeState) :
    (scopeStopChecks cfg trig elapsed s).totalWritten = s.totalWritten := by
  rcases scopeStopChecks_cases cfg trig elapsed s with h | h | h <;> rw [h]

theorem scopeStopChecks_accepted (cfg : ScopeCfg) (trig elapsed : Nat) (s : ScopeState) :
    (scopeStopChecks cfg trig elapsed s).accepted = s.accepted := by
  rcases scopeStopChecks_cases cfg trig elapsed s with h | h | h <;> rw [h]

theorem scopeStep_fill_lt (cfg : ScopeCfg) (hbs : 1 ≤ cfg.bufferSize)
    (s : ScopeState) (inp : ScopeInput)
    (hs : s.slots.length < cfg.bufferSize) :
    (scopeStep cfg s inp).slots.length < cfg.bufferSize := by
  unfold scopeStep
  cases inp.read with
  | timeout => exact hs
  | stop => exact hs
  | fatal => exact hs
  | ok ev =>
      dsimp only
      split
      · exact hs
      · rw [scopeStopChecks_slots]
        split
        · simp only [List.length_nil]
          omega
        · rename_i hlen
          simp only [List.length_append, List.length_cons, List.length_nil] at hlen ⊢
          omega

/-- C1 (amended): in frame mode (daq_scope.py), for every run
configuration with a positive buffer capacity and every trace of read
outcomes, the buffer fill count at every loop iteration boundary stays
strictly below the configured capacity buffer_size, so each append
writes within capacity and the fill count never exceeds it; the flush
branch resets the fill exactly when an append reaches capacity.  In
per-channel mode (daq_dpppha.py) this fails: the flush condition is
strictly-greater, so a channel buffer holds buffer_size + 1 events
before the flush, and with saving disabled the per-channel lists are
never cleared at all (see the counterexample). -/
theorem c1_scope_fill_never_exceeds (cfg : ScopeCfg) (inputs : List ScopeInput)
    (hbs : 1 ≤ cfg.bufferSize) :
    (scopeRun cfg inputs).slots.length < cfg.bufferSize := by
  refine scopeRunFrom_preserve cfg (fun s => s.slots.length < cfg.bufferSize)
    (fun s inp _ hs => scopeStep_fill_lt cfg hbs s inp hs) inputs (scopeInit cfg) ?_
  simp only [scopeInit, List.length_nil]
  omega

/-- Witness for c1_scope_fill_never_exceeds at a concrete
configuration and trace. -/
theorem c1_scope_fill_never_exceeds_witness :
    1 ≤ c2ScopeCfg.bufferSize ∧
    (scopeRun c2ScopeCfg [scopeOkInput 1 0 "T"]).slots.length < c2ScopeCfg.bufferSize :=
  ⟨by decide, c1_scope_fill_never_exceeds c2ScopeCfg [scopeOkInput 1 0 "T"] (by decide)⟩

/-- C1 (counterexample): in per-channel mode with configured capacity
buffer_size = 1 and saving disabled, after two accepted events the
single active channel buffer holds 2 entries: the fill count exceeds
the configured capacity and the second append was performed, not
rejected (daq_dpppha.py line 253 flushes only when buffer_counter is
strictly greater than buffer_size, and with saving disabled the lists
are never cleared). -/
theorem c1_counterexample :
    c1DppCfg.bufferSize = 1 ∧
    (dppRun c1DppCfg [dppOkInput 8 8, dppOkInput 8 8]).bufs.map
      (fun p => p.2.wfLens.length) = [2] ∧
    c1DppCfg.bufferSize < 2 :=
  ⟨rfl, by decide, by decide⟩

theorem dppStopChecks_drained (cfg : DppCfg) (hsave : cfg.saveEnabled = true)
    (inp : DppInput) (s : DppState) (hend : s.ended = none) :
    ((dppStopChecks cfg inp s).ended = some .targetReached ∨
     (dppStopChecks cfg inp s).ended = some .durationReached) →
    ∀ p ∈ (dppStopChecks cfg inp s).bufs, p.2.wfLens = [] := by
  unfold dppStopChecks
  rw [hsave]
  split
  · intro _ p hp
    simp only [if_true, dppFlush, List.mem_map] at hp
    obtain ⟨q, _, hq⟩ := hp
    rw [← hq]
  · split
    · intro _ p hp
      simp only [if_true, dppFlush, List.mem_map] at hp
      obtain ⟨q, _, hq⟩ := hp
      rw [← hq]
    · intro h
      rw [hend] at h
      simp at h

theorem dppStep_drained (cfg : DppCfg) (hsave : cfg.saveEnabled = true)
    (s : DppState) (inp : DppInput) (hend : s.ended = none) :
    ((dppStep cfg s inp).ended = some .targetReached ∨
     (dppStep cfg s inp).ended = some .durationReached) →
    ∀ p ∈ (dppStep cfg s inp).bufs, p.2.wfLens = [] := by
  unfold dppStep
  cases hr : inp.read with
  | timeout => intro h; rw [hend] at h; simp at h
  | stop => intro h; simp at h
  | fatal => intro h; simp at h
  | ok ev =>
      dsimp only
      split
      · apply dppStopChecks_drained cfg hsave inp _ ?_
        dsimp only
        split
        · split
          · split
            · simp [dppFlush, hend]
            · simp [dppFlush, hend]
          · exact hend
        · exact hend
      · intro h; simp at h

/-- C2 (amended): in per-channel mode (daq_dpppha.py), when the loop
stops because the target event count is reached or the max duration
has elapsed and saving is enabled, one final flush of the
partially-filled buffers is performed before termination, leaving
every channel buffer empty.  The claim as stated is refuted by the
counterexample: no such final flush exists in frame mode
(daq_scope.py), and in per-channel mode none is performed when the
adapter signals Stop. -/
theorem c2_dpp_final_flush (cfg : DppCfg) (inputs : List DppInput)
    (hsave : cfg.saveEnabled = true)
    (hstop : (dppRun cfg inputs).ended = some .targetReached ∨
             (dppRun cfg inputs).ended = some .durationReached) :
    ∀ p ∈ (dppRun cfg inputs).bufs, p.2.wfLens = [] := by
  refine dppRunFrom_preserve cfg
    (fun s => (s.ended = some .targetReached ∨ s.ended = some .durationReached) →
      ∀ p ∈ s.bufs, p.2.wfLens = [])
    (fun s inp hnone _ => dppStep_drained cfg hsave s inp hnone)
    inputs (dppInit cfg) ?_ hstop
  intro h
  simp [dppInit] at h

/-- Witness for c2_dpp_final_flush at a concrete configuration and
trace reaching the event target. -/
theorem c2_dpp_final_flush_witness :
    c2DppCfg.saveEnabled = true ∧
    (dppRun c2DppCfg [dppOkInput 8 8]).ended = some .targetReached ∧
    ((0 : Int), ({ wfLens := [], count := 1 } : ChBuf)) ∈ (dppRun c2DppCfg [dppOkInput 8 8]).bufs ∧
    (({ wfLens := [], count := 1 } : ChBuf)).wfLens = [] :=
  ⟨rfl, by decide, by decide,
    c2_dpp_final_flush c2DppCfg [dppOkInput 8 8] rfl (Or.inl (by decide))
      ((0 : Int), ({ wfLens := [], count := 1 } : ChBuf)) (by decide)⟩

/-- C2 (counterexample): in frame mode with saving enabled, buffer
capacity 5 and a target of 2 events, the loop terminates on the target
condition with 2 events still sitting in the partially-filled buffer
and an empty flush log: no final flush of the partially-filled buffers
is performed before the loop terminates (daq_scope.py lines 254-257
break immediately). -/
theorem c2_counterexample :
    c2ScopeCfg.saveEnabled = true ∧
    (scopeRun c2ScopeCfg [scopeOkInput 1 0 "T", scopeOkInput 2 0 "T"]).ended
      = some .targetReached ∧
    (scopeRun c2ScopeCfg [scopeOkInput 1 0 "T", scopeOkInput 2 0 "T"]).slots.length = 2 ∧
    (scopeRun c2ScopeCfg [scopeOkInput 1 0 "T", scopeOkInput 2 0 "T"]).flushes = [] :=
  ⟨rfl, by decide, by decide, by decide⟩

theorem scopeSaveBlock_ledger (cfg : ScopeCfg) (s1 : ScopeState) (inp : ScopeInput)
    (hA : ∀ r ∈ s1.flushes, r.rotated = true →
      r.existsSeen = true ∧ cfg.maxFileBytes ≤ r.sizeSeen)
    (hB : s1.totalWritten + s1.slots.length = s1.accepted)
    (hC : s1.files.length = 1 + (s1.flushes.filter (fun r => r.rotated)).length) :
    (∀ r ∈ (scopeSaveBlock cfg s1 inp).flushes, r.rotated = true →
        r.existsSeen = true ∧ cfg.maxFileBytes ≤ r.sizeSeen) ∧
    (scopeSaveBlock cfg s1 inp).totalWritten = (scopeSaveBlock cfg s1 inp).accepted ∧
    (scopeSaveBlock cfg s1 inp).files.length
        = 1 + ((scopeSaveBlock cfg s1 inp).flushes.filter (fun r => r.rotated)).length := by
  have hmem : ∀ r ∈ s1.flushes ++
      [{ cause := .full, written := s1.slots, file := s1.currentFile,
         existsSeen := inp.fileExists, sizeSeen := inp.fileSize,
         rotated := inp.fileExists && decide (cfg.maxFileBytes ≤ inp.fileSize) : FlushRec }],
      r.rotated = true → r.existsSeen = true ∧ cfg.maxFileBytes ≤ r.sizeSeen := by
    intro r hrm hrot
    rcases List.mem_append.mp hrm with hold | hnew
    · exact hA r hold hrot
    · rcases List.mem_singleton.mp hnew with rfl
      dsimp only at hrot
      simp only [Bool.and_eq_true, decide_eq_true_eq] at hrot
      exact hrot
  unfold scopeSaveBlock
  dsimp only
  split
  · rename_i hb
    refine ⟨hmem, by dsimp only; omega, ?_⟩
    rw [List.filter_append]
    simp only [List.filter_cons, List.filter_nil, List.length_append,
      List.length_cons, List.length_nil, hb, if_true]
    omega
  · rename_i hb
    rw [Bool.not_eq_true] at hb
    refine ⟨hmem, by dsimp only; omega, ?_⟩
    rw [List.filter_append]
    simp only [List.filter_cons, List.filter_nil, List.length_append,
      List.length_cons, List.length_nil, hb, Bool.false_eq_true, if_false]
    omega

theorem scopeStep_ledger (cfg : ScopeCfg) (hsave : cfg.saveEnabled = true)
    (s : ScopeState) (inp : ScopeInput)
    (hA : ∀ r ∈ s.flushes, r.rotated = true →
      r.existsSeen = true ∧ cfg.maxFileBytes ≤ r.sizeSeen)
    (hB : s.totalWritten + s.slots.length = s.accepted)
    (hC : s.files.length = 1 + (s.flushes.filter (fun r => r.rotated)).length) :
    (∀ r ∈ (scopeStep cfg s inp).flushes, r.rotated = true →
        r.existsSeen = true ∧ cfg.maxFileBytes ≤ r.sizeSeen) ∧
    (scopeStep cfg s inp).totalWritten + (scopeStep cfg s inp).slots.length
        = (scopeStep cfg s inp).accepted ∧
    (scopeStep cfg s inp).files.length
        = 1 + ((scopeStep cfg s inp).flushes.filter (fun r => r.rotated)).length := by
  unfold scopeStep
  cases hr : inp.read with
  | timeout => exact ⟨hA, hB, hC⟩
  | stop => exact ⟨hA, hB, hC⟩
  | fatal => exact ⟨hA, hB, hC⟩
  | ok ev =>
      dsimp only
      split
      · exact ⟨hA, hB, hC⟩
      · rw [scopeStopChecks_flushes, scopeStopChecks_totalWritten, scopeStopChecks_slots,
            scopeStopChecks_accepted, scopeStopChecks_files]
        split
        · obtain ⟨h1, h2, h3⟩ := scopeSaveBlock_ledger cfg
            { s with
              slots := s.slots ++
                [{ trigId := ev.triggerId, evnum := ev.triggerId % 65536,
                   tsStored := (cfg.startTs + ev.timestamp) % 2 ^ 64, wfCols := ev.cols }],
              lastTrig := ev.triggerId, accepted := s.accepted + 1 } inp
            (by exact hA)
            (by dsimp only
                simp only [List.length_append, List.length_cons, List.length_nil]
                omega)
            (by exact hC)
          refine ⟨h1, ?_, h3⟩
          simp only [List.length_nil]
          omega
        · rename_i hlen
          refine ⟨hA, ?_, hC⟩
          dsimp only
          simp only [List.length_append, List.length_cons, List.length_nil] at hB ⊢
          omega

/-- C3 (amended): in frame mode with saving enabled, for every run:
every rotation recorded in the flush log happened inside a flush whose
post-write size observation existed and met the size threshold (so
rotation happens only after a flush, on the threshold condition); the
events written across all files plus the events still buffered equal
the number of accepted events (a conservation ledger); and the number
of files opened is exactly one more than the number of rotations.  The
claim as stated is refuted by the counterexample: the rotation
timestamp comes from the wall clock with no uniqueness check, so a
repeated clock string reuses a file name, and the final partial buffer
is never written, so the total written can fall short of the final
event counter. -/
theorem c3_rotation_ledger (cfg : ScopeCfg) (inputs : List ScopeInput)
    (hsave : cfg.saveEnabled = true) :
    (∀ r ∈ (scopeRun cfg inputs).flushes, r.rotated = true →
        r.existsSeen = true ∧ cfg.maxFileBytes ≤ r.sizeSeen) ∧
    (scopeRun cfg inputs).totalWritten + (scopeRun cfg inputs).slots.length
        = (scopeRun cfg inputs).accepted ∧
    (scopeRun cfg inputs).files.length
        = 1 + ((scopeRun cfg inputs).flushes.filter (fun r => r.rotated)).length := by
  refine scopeRunFrom_preserve cfg
    (fun s =>
      (∀ r ∈ s.flushes, r.rotated = true →
          r.existsSeen = true ∧ cfg.maxFileBytes ≤ r.sizeSeen) ∧
      s.totalWritten + s.slots.length = s.accepted ∧
      s.files.length = 1 + (s.flushes.filter (fun r => r.rotated)).length)
    (fun s inp _ hs => scopeStep_ledger cfg hsave s inp hs.1 hs.2.1 hs.2.2)
    inputs (scopeInit cfg) ?_
  refine ⟨?_, ?_, ?_⟩
  · intro r hr
    simp [scopeInit] at hr
  · simp [scopeInit]
  · simp [scopeInit, hsave]

/-- Witness for c3_rotation_ledger at a concrete configuration and
trace with two rotations. -/
theorem c3_rotation_ledger_witness :
    c3ScopeCfg.saveEnabled = true ∧
    ((scopeRun c3ScopeCfg c3Inputs).totalWritten
        + (scopeRun c3ScopeCfg c3Inputs).slots.length
        = (scopeRun c3ScopeCfg c3Inputs).accepted) ∧
    (scopeRun c3ScopeCfg c3Inputs).files.length
        = 1 + ((scopeRun c3ScopeCfg c3Inputs).flushes.filter (fun r => r.rotated)).length :=
  ⟨rfl, (c3_rotation_ledger c3ScopeCfg c3Inputs rfl).2.1,
    (c3_rotation_ledger c3ScopeCfg c3Inputs rfl).2.2⟩

/-- C3 (counterexample): with a rotation threshold of 1 byte, buffer
capacity 2, target 5 and a wall clock that reports the string B at
both rotations, the run opens the files run_A.lh5, run_B.lh5 and
run_B.lh5 again: the second rotation reuses a timestamp suffix already
present among files sharing the base name.  Moreover the run ends on
the target condition with event counter 5 while only 4 events were
written across all files: the totals do not match. -/
theorem c3_counterexample :
    (scopeRun c3ScopeCfg c3Inputs).files
      = ["run_A.lh5", "run_B.lh5", "run_B.lh5"] ∧
    ¬ (scopeRun c3ScopeCfg c3Inputs).files.Nodup ∧
    (scopeRun c3ScopeCfg c3Inputs).totalWritten = 4 ∧
    (scopeRun c3ScopeCfg c3Inputs).lastTrig = 5 ∧
    (scopeRun c3ScopeCfg c3Inputs).ended = some .targetReached ∧
    (4 : Nat) ≠ 5 :=
  ⟨by decide, by decide, by decide, by decide, by decide, by decide⟩

/-- C4 (amended): for every ordered collection of channel groups with
selector strings in the two forms the source implements (single
integer or inclusive range), the resolved active channel list is
sorted, contains no duplicates, and its members are exactly the
channels contributed by enabled groups (the mathematical union);
disabled groups contribute nothing by definition of groupChannels.
Scenario A holds.  The explicit-list selector form named by the spec
is refuted by the counterexample: the source has no list branch. -/
theorem c4_resolver_union (groups : List ChannelGroup) (x : Int) :
    (resolveChannels groups).Sorted (fun a b => a ≤ b) ∧
    (resolveChannels groups).Nodup ∧
    (x ∈ resolveChannels groups ↔ ∃ g ∈ groups, x ∈ groupChannels g) ∧
    resolveChannels [{ channels := some "0..3", chenable := true },
                     { channels := some "5", chenable := true }] = [0, 1, 2, 3, 5] :=
  ⟨resolveChannels_sorted groups, resolveChannels_nodup groups,
   mem_resolveChannels groups x, by decide⟩

/-- C4 (counterexample): the selector "[0, 2, 5]" is a valid
explicit-list selector in the sense of the spec (specSelectorChannels
accepts it), but the source parser has no list branch: a single
enabled group carrying it fails int() parsing and is skipped, so the
resolved ActiveChannelSet is empty instead of [0, 2, 5]. -/
theorem c4_counterexample :
    specSelectorChannels "[0, 2, 5]" = some [0, 2, 5] ∧
    resolveChannels [{ channels := some "[0, 2, 5]", chenable := true }] = [] ∧
    sortedDedup [0, 2, 5] = [0, 2, 5] ∧
    (([] : List Int) ≠ [0, 2, 5]) :=
  ⟨by decide, by decide, by decide, by decide⟩

set_option maxRecDepth 10000 in
/-- C5 (amended): with buffer_size 100 and a target of 50 events the
effective capacity clamps to 50, and exactly one flush occurs in the
run; but in frame mode (daq_scope.py) that flush is triggered by the
buffer-full condition when the 50th event is appended, immediately
before the stopping check, not by a draining step, while in
per-channel mode (daq_dpppha.py) the single flush does occur in the
stopping branch.  The claim as stated (flush at draining, none at
full) is refuted for the cited frame-mode code by the
counterexample. -/
theorem c5_clamp_single_flush :
    clampBufferSize 100 (some 50) = 50 ∧
    c5ScopeCfg.bufferSize = 50 ∧
    c5DppCfg.bufferSize = 50 ∧
    (scopeRun c5ScopeCfg c5Inputs).flushes.map (fun r => r.cause) = [.full] ∧
    (scopeRun c5ScopeCfg c5Inputs).slots = [] ∧
    (scopeRun c5ScopeCfg c5Inputs).ended = some .targetReached ∧
    (dppRun c5DppCfg c5DppInputs).flushes.map (fun r => r.cause) = [.draining] ∧
    (dppRun c5DppCfg c5DppInputs).ended = some .targetReached :=
  ⟨by decide, by decide, by decide, by decide, by decide, by decide, by decide, by decide⟩

set_option maxRecDepth 10000 in
/-- C5 (counterexample): in the frame-mode scenario-B run the flush
log holds exactly one record and its cause is the buffer-full branch,
contradicting the claim that the single flush happens at draining with
none triggered by buffer-full. -/
theorem c5_counterexample :
    (scopeRun c5ScopeCfg c5Inputs).flushes.map (fun r => r.cause) = [.full] ∧
    ((scopeRun c5ScopeCfg c5Inputs).flushes.map (fun r => r.cause)
      ≠ [.draining]) :=
  ⟨by decide, by decide⟩

/-- C6: device read outcomes are handled per the adapter contract in
both loops: a Timeout leaves the state exactly unchanged (silent
retry, nothing buffered, no counter advanced), a Stop ends the loop
with the deviceStop reason rather than an error, and any other device
error ends it as fatal; concretely, a Timeout followed by a successful
read advances the event counter by exactly one in both modes. -/
theorem c6_read_outcome_contract :
    (∀ (cfg : ScopeCfg) (s : ScopeState) (fe : Bool) (fs : Nat) (nw : String) (el : Nat),
        scopeStep cfg s { read := .timeout, fileExists := fe, fileSize := fs,
                          now := nw, elapsed := el } = s ∧
        scopeStep cfg s { read := .stop, fileExists := fe, fileSize := fs,
                          now := nw, elapsed := el }
          = { s with ended := some .deviceStop } ∧
        scopeStep cfg s { read := .fatal, fileExists := fe, fileSize := fs,
                          now := nw, elapsed := el }
          = { s with ended := some .fatalError }) ∧
    (∀ (cfg : DppCfg) (s : DppState) (rl : Nat) (a16 fe : Bool) (fs : Nat)
        (nw : String) (el : Nat),
        dppStep cfg s { read := .timeout, chRecordLengths := rl, adcInput16 := a16,
                        fileExists := fe, fileSize := fs, now := nw, elapsed := el } = s ∧
        dppStep cfg s { read := .stop, chRecordLengths := rl, adcInput16 := a16,
                        fileExists := fe, fileSize := fs, now := nw, elapsed := el }
          = { s with ended := some .deviceStop } ∧
        dppStep cfg s { read := .fatal, chRecordLengths := rl, adcInput16 := a16,
                        fileExists := fe, fileSize := fs, now := nw, elapsed := el }
          = { s with ended := some .fatalError }) ∧
    (dppRun c6DppCfg [dppTimeoutInput, dppOkInput 8 8]).triggerId = 1 ∧
    (scopeRun c6ScopeCfg [scopeTimeoutInput, scopeOkInput 1 0 "T"]).accepted = 1 ∧
    scopeRun c6ScopeCfg [scopeTimeoutInput] = scopeInit c6ScopeCfg ∧
    dppRun c6DppCfg [dppTimeoutInput] = dppInit c6DppCfg :=
  ⟨fun _ _ _ _ _ _ => ⟨rfl, rfl, rfl⟩,
   fun _ _ _ _ _ _ _ _ => ⟨rfl, rfl, rfl⟩,
   by decide, by decide, by decide, by decide⟩

/-- C7 (amended): an empty resolved ActiveChannelSet is never
rejected: whether the pre-device phase of main succeeds does not
depend on the channel list at all.  The fatal pre-device paths are
exactly: a missing configuration file, a YAML parse failure, a missing
or non-integer recordlengths key (uncaught KeyError or ValueError at
daq_scope.py line 117), and a missing acqtriggersource key (uncaught
KeyError at line 118).  When those two mandatory keys are present and
recordlengths parses as an integer, setup succeeds — with an empty
channel list as much as with a populated one — and the acquisition
loop starts with zero channels.  The claim as stated is refuted by the
counterexample. -/
theorem c7_empty_set_not_rejected (gen : GenSettings) (groups : List ChannelGroup)
    (args : CliArgs) (rlRaw : String) (rl : Int) (src : String)
    (hrl : gen.recordlengths = some rlRaw)
    (hrlInt : pyInt rlRaw = some rl)
    (hsrc : gen.acqtriggersource = some src) :
    scopeStart .missing args = .error .configFileNotFound ∧
    scopeStart .parseError args = .error .yamlError ∧
    (∀ (gen2 : GenSettings) (groups2 : List ChannelGroup),
      gen2.recordlengths = none →
        scopeStart (.loaded gen2 groups2) args = .error (.uncaughtKeyError "recordlengths")) ∧
    (∀ (gen2 : GenSettings) (groups2 : List ChannelGroup) (raw : String),
      gen2.recordlengths = some raw → pyInt raw = none →
        scopeStart (.loaded gen2 groups2) args = .error .uncaughtValueError) ∧
    (∀ (gen2 : GenSettings) (groups2 : List ChannelGroup) (raw : String) (v : Int),
      gen2.recordlengths = some raw → pyInt raw = some v →
      gen2.acqtriggersource = none →
        scopeStart (.loaded gen2 groups2) args = .error (.uncaughtKeyError "acqtriggersource")) ∧
    scopeStart (.loaded gen groups) args
      = .ok
        { channelList := resolveChannels groups
          activeChCount := (resolveChannels groups).length
          bufferSize := clampBufferSize (gen.bufferSize.getD 100) args.nEvents
          maxFileBytes := (gen.maxFileSizeMb.getD 100) * 1024 * 1024
          saveEnabled := args.outFile.isSome
          baseName := stripLh5 (args.outFile.getD "")
          recordlengths := rl
          acqtriggersource := src } := by
  refine ⟨rfl, rfl, ?_, ?_, ?_, ?_⟩
  · intro gen2 groups2 h2
    simp only [scopeStart, h2]
  · intro gen2 groups2 raw h2 h3
    simp only [scopeStart, h2, h3]
  · intro gen2 groups2 raw v h2 h3 h4
    simp only [scopeStart, h2, h3, h4]
  · simp only [scopeStart, hrl, hrlInt, hsrc]

/-- Witness for c7_empty_set_not_rejected at the concrete
configuration of the counterexample, discharging the mandatory-key
hypotheses. -/
theorem c7_empty_set_not_rejected_witness :
    c7Gen.recordlengths = some "4" ∧
    pyInt "4" = some 4 ∧
    c7Gen.acqtriggersource = some "SwTrg" ∧
    scopeStart (.loaded c7Gen c7Groups) c7Args = .ok c7Setup :=
  ⟨rfl, by decide, rfl,
    (c7_empty_set_not_rejected c7Gen c7Groups c7Args "4" 4 "SwTrg"
      rfl (by decide) rfl).2.2.2.2.2⟩

/-- C7 (counterexample): a configuration whose only group is disabled
resolves to an empty ActiveChannelSet, yet setup succeeds (no
ConfigError is reported) and the acquisition loop runs, accepting an
event with zero active channels. -/
theorem c7_counterexample :
    resolveChannels c7Groups = [] ∧
    scopeStart (.loaded c7Gen c7Groups) c7Args = .ok c7Setup ∧
    c7Setup.channelList = [] ∧
    (scopeRun c7ScopeCfg [c7Input]).accepted = 1 ∧
    (scopeRun c7ScopeCfg [c7Input]).ended = none :=
  ⟨by decide, rfl, rfl, by decide, by decide⟩

theorem scopeSaveBlock_flushes (cfg : ScopeCfg) (s : ScopeState) (inp : ScopeInput) :
    (scopeSaveBlock cfg s inp).flushes
      = s.flushes ++
        [{ cause := .full, written := s.slots, file := s.currentFile,
           existsSeen := inp.fileExists, sizeSeen := inp.fileSize,
           rotated := inp.fileExists && decide (cfg.maxFileBytes ≤ inp.fileSize) }] := by
  unfold scopeSaveBlock
  dsimp only
  split <;> rfl

theorem scopeStep_slots_shape (cfg : ScopeCfg) (s : ScopeState) (inp : ScopeInput)
    (hs : (∀ sl ∈ s.slots, sl.wfCols = cfg.recordlengths ∧ sl.evnum = sl.trigId % 65536) ∧
          (∀ r ∈ s.flushes, ∀ sl ∈ r.written,
            sl.wfCols = cfg.recordlengths ∧ sl.evnum = sl.trigId % 65536)) :
    (∀ sl ∈ (scopeStep cfg s inp).slots,
        sl.wfCols = cfg.recordlengths ∧ sl.evnum = sl.trigId % 65536) ∧
    (∀ r ∈ (scopeStep cfg s inp).flushes, ∀ sl ∈ r.written,
        sl.wfCols = cfg.recordlengths ∧ sl.evnum = sl.trigId % 65536) := by
  unfold scopeStep
  cases hr : inp.read with
  | timeout => exact hs
  | stop => exact hs
  | fatal => exact hs
  | ok ev =>
      dsimp only
      split
      · exact hs
      · rename_i hacc
        have hcols : ev.cols = cfg.recordlengths := by
          rcases not_or.mp hacc with ⟨h1, h2⟩
          exact not_ne_iff.mp h2
        have hslots : ∀ sl ∈ s.slots ++
            [{ trigId := ev.triggerId, evnum := ev.triggerId % 65536,
               tsStored := (cfg.startTs + ev.timestamp) % 2 ^ 64, wfCols := ev.cols : Slot }],
            sl.wfCols = cfg.recordlengths ∧ sl.evnum = sl.trigId % 65536 := by
          intro sl hsl
          rcases List.mem_append.mp hsl with hold | hnew
          · exact hs.1 sl hold
          · rcases List.mem_singleton.mp hnew with rfl
            exact ⟨hcols, rfl⟩
        rw [scopeStopChecks_slots, scopeStopChecks_flushes]
        split
        · constructor
          · intro sl hsl
            simp at hsl
          · dsimp only
            split
            · rw [scopeSaveBlock_flushes]
              intro r hrm sl hsl
              rcases List.mem_append.mp hrm with hold | hnew
              · exact hs.2 r hold sl hsl
              · rcases List.mem_singleton.mp hnew with rfl
                exact hslots sl hsl
            · exact hs.2
        · exact ⟨hslots, hs.2⟩

/-- C8 (amended): in frame mode the record length is determined once
at configuration time: every waveform stored in the buffers and every
waveform written by a flush has exactly cfg.recordlengths samples, for
every run configuration and input trace.  In per-channel mode the
record length is re-queried from the device for every incoming event
(and doubled when the device reports waveanalogprobe0 as ADCInput16),
so one channel buffer can hold waveforms of different lengths: see the
counterexample. -/
theorem c8_scope_fixed_record_length (cfg : ScopeCfg) (inputs : List ScopeInput) :
    (∀ sl ∈ (scopeRun cfg inputs).slots, sl.wfCols = cfg.recordlengths) ∧
    (∀ r ∈ (scopeRun cfg inputs).flushes, ∀ sl ∈ r.written,
        sl.wfCols = cfg.recordlengths) := by
  have h := scopeRunFrom_preserve cfg
    (fun s =>
      (∀ sl ∈ s.slots, sl.wfCols = cfg.recordlengths ∧ sl.evnum = sl.trigId % 65536) ∧
      (∀ r ∈ s.flushes, ∀ sl ∈ r.written,
        sl.wfCols = cfg.recordlengths ∧ sl.evnum = sl.trigId % 65536))
    (fun s inp _ hs => scopeStep_slots_shape cfg s inp hs)
    inputs (scopeInit cfg)
    (by constructor
        · intro sl hsl
          simp [scopeInit] at hsl
        · intro r hrm
          simp [scopeInit] at hrm)
  exact ⟨fun sl hsl => (h.1 sl hsl).1, fun r hrm sl hsl => (h.2 r hrm sl hsl).1⟩

/-- Witness for c8_scope_fixed_record_length at a concrete run with
one buffered slot. -/
theorem c8_scope_fixed_record_length_witness :
    (⟨1, 1, 0, 4⟩ : Slot) ∈ (scopeRun c2ScopeCfg [scopeOkInput 1 0 "T"]).slots ∧
    (⟨1, 1, 0, 4⟩ : Slot).wfCols = c2ScopeCfg.recordlengths :=
  ⟨by decide,
    (c8_scope_fixed_record_length c2ScopeCfg [scopeOkInput 1 0 "T"]).1
      ⟨1, 1, 0, 4⟩ (by decide)⟩

/-- C8 (counterexample): a per-channel-mode run in which the device
reports chrecordlengths 4 for the first event and 8 for the second
leaves channel 0 holding waveforms of lengths 4 and 8 in the same
buffer: the record length was re-derived from the device on each
event, not fixed at configuration time. -/
theorem c8_counterexample :
    (dppRun c8DppCfg [dppOkInput 100 4, dppOkInput 100 8]).bufs
      = [(0, { wfLens := [4, 8], count := 2 })] ∧
    (4 : Nat) ≠ 8 :=
  ⟨by decide, by decide⟩

/-- C9 (amended): in frame mode, an event whose waveform has fewer
rows than there are active channels or a sample count different from
the configured record length is discarded: the loop state is exactly
unchanged, so nothing is buffered, the fill does not advance and
acquisition continues.  In per-channel mode there is no shape check at
all — a short probe payload is silently truncated and buffered, not
discarded: see the counterexample. -/
theorem c9_scope_discard (cfg : ScopeCfg) (s : ScopeState) (inp : ScopeInput)
    (ev : FrameEvent) (hread : inp.read = .ok ev)
    (hbad : ev.rows < cfg.channelList.length ∨ ev.cols ≠ cfg.recordlengths) :
    scopeStep cfg s inp = s := by
  unfold scopeStep
  rw [hread]
  exact if_pos hbad

/-- Witness for c9_scope_discard: an event with zero waveform rows
against one active channel leaves the initial state unchanged. -/
theorem c9_scope_discard_witness :
    scopeStep c2ScopeCfg (scopeInit c2ScopeCfg)
      { read := .ok { timestamp := 0, triggerId := 1, rows := 0, cols := 4 },
        fileExists := true, fileSize := 0, now := "T", elapsed := 0 }
      = scopeInit c2ScopeCfg :=
  c9_scope_discard c2ScopeCfg (scopeInit c2ScopeCfg)
    { read := .ok { timestamp := 0, triggerId := 1, rows := 0, cols := 4 },
      fileExists := true, fileSize := 0, now := "T", elapsed := 0 }
    { timestamp := 0, triggerId := 1, rows := 0, cols := 4 } rfl (by decide)

/-- C9 (counterexample): in per-channel mode an event whose probe
payload is 3 samples long while the device reports a record length of
5 is not discarded: it is appended truncated, the channel fill count
advances to 1, and the loop continues. -/
theorem c9_counterexample :
    (dppRun c8DppCfg [dppOkInput 3 5]).bufs = [(0, { wfLens := [3], count := 1 })] ∧
    (3 : Nat) ≠ 5 ∧
    (dppRun c8DppCfg [dppOkInput 3 5]).ended = none :=
  ⟨by decide, by decide, by decide⟩

/-- C10: in frame mode the per-event index is stored through a numpy
uint16 buffer, so every slot ever buffered or flushed records the
event number as the 32-bit device trigger id modulo 65536, for every
run; the stopping check, by contrast, compares the full trigger id:
in the concrete run a single event with trigger id 70000 stops a run
whose target is 65600 (70000 is at least 65600) while the recorded
event number is 4464, which is below the target. -/
theorem c10_evnum_wraps (cfg : ScopeCfg) (inputs : List ScopeInput) :
    ((∀ sl ∈ (scopeRun cfg inputs).slots, sl.evnum = sl.trigId % 65536) ∧
     (∀ r ∈ (scopeRun cfg inputs).flushes, ∀ sl ∈ r.written,
        sl.evnum = sl.trigId % 65536)) ∧
    ((scopeRun c10ScopeCfg [scopeOkInput 70000 0 "T"]).ended = some .targetReached ∧
     (scopeRun c10ScopeCfg [scopeOkInput 70000 0 "T"]).slots.map (fun sl => sl.evnum)
        = [4464] ∧
     70000 % 65536 = 4464 ∧ 4464 < 65600) := by
  constructor
  · have h := scopeRunFrom_preserve cfg
      (fun s =>
        (∀ sl ∈ s.slots, sl.wfCols = cfg.recordlengths ∧ sl.evnum = sl.trigId % 65536) ∧
        (∀ r ∈ s.flushes, ∀ sl ∈ r.written,
          sl.wfCols = cfg.recordlengths ∧ sl.evnum = sl.trigId % 65536))
      (fun s inp _ hs => scopeStep_slots_shape cfg s inp hs)
      inputs (scopeInit cfg)
      (by constructor
          · intro sl hsl
            simp [scopeInit] at hsl
          · intro r hrm
            simp [scopeInit] at hrm)
    exact ⟨fun sl hsl => (h.1 sl hsl).2, fun r hrm sl hsl => (h.2 r hrm sl hsl).2⟩
  · exact ⟨by decide, by decide, by decide, by decide⟩

/-- Witness for c10_evnum_wraps at a concrete run with one buffered
slot whose trigger id exceeds 65536. -/
theorem c10_evnum_wraps_witness :
    (⟨70000, 4464, 0, 4⟩ : Slot) ∈ (scopeRun c10ScopeCfg [scopeOkInput 70000 0 "T"]).slots ∧
    (⟨70000, 4464, 0, 4⟩ : Slot).evnum = (⟨70000, 4464, 0, 4⟩ : Slot).trigId % 65536 :=
  ⟨by decide,
    (c10_evnum_wraps c10ScopeCfg [scopeOkInput 70000 0 "T"]).1.1
      ⟨70000, 4464, 0, 4⟩ (by decide)⟩

end PyCaenDaq
